import Mathlib

/-!
Verification of the quadcopter flight model in `drone.py` against its
natural-language specification.

The embedding has two layers:

* a faithful layer (`*_exec` definitions returning `Except PyError _`)
  that models what the Python interpreter actually does, including the
  exceptions raised by the reference code (`np` is referenced but numpy
  is never imported; `change_rotor_speed` is declared without a `self`
  parameter; `calc_yaw` multiplies a Python list by a list; `get_params`
  reads attributes `self.roll` / `self.pitch` / `self.yaw` that are
  never assigned);

* an arithmetic layer (plain definitions) embedding the computation the
  source spells out, with the undefined names resolved the way the spec
  directs (`np` matrix expressions, written out literally in the source,
  as 3x3 matrix-vector products; the stale scalar attributes `roll`,
  `pitch`, `yaw` as the components of the `rotation` vector, per the
  class docstring "rotation: Roll, pitch and yaw stored as a vector").

Python floats are modelled as real numbers.
-/

namespace FlyPy

noncomputable section

/-- Modelled from the spec: `vector.py` is imported by `drone.py`
(`from vector import Vector`) but is not part of the provided sources.
Section 3 of the spec describes Vector3 as "a 3-component numeric tuple
(x, y, z) supporting addition, subtraction, scalar multiply/divide",
with "construction from (x,y,z) or zero-default". -/
structure Vector where
  x : ℝ
  y : ℝ
  z : ℝ

/-- Modelled from the spec: `Vector()` constructs the zero vector. -/
def Vector.zero : Vector := ⟨0, 0, 0⟩

/-- Modelled from the spec: component-wise addition. -/
instance : Add Vector := ⟨fun a b => ⟨a.x + b.x, a.y + b.y, a.z + b.z⟩⟩

/-- Modelled from the spec: component-wise subtraction. -/
instance : Sub Vector := ⟨fun a b => ⟨a.x - b.x, a.y - b.y, a.z - b.z⟩⟩

/-- Modelled from the spec: scalar multiplication. -/
instance : HMul Vector ℝ Vector := ⟨fun v s => ⟨v.x * s, v.y * s, v.z * s⟩⟩

/-- Modelled from the spec: scalar division. -/
instance : HDiv Vector ℝ Vector := ⟨fun v s => ⟨v.x / s, v.y / s, v.z / s⟩⟩

@[simp] theorem Vector.add_def (a b : Vector) :
    a + b = ⟨a.x + b.x, a.y + b.y, a.z + b.z⟩ := rfl

@[simp] theorem Vector.sub_def (a b : Vector) :
    a - b = ⟨a.x - b.x, a.y - b.y, a.z - b.z⟩ := rfl

@[simp] theorem Vector.mul_def (v : Vector) (s : ℝ) :
    v * s = ⟨v.x * s, v.y * s, v.z * s⟩ := rfl

@[simp] theorem Vector.div_def (v : Vector) (s : ℝ) :
    v / s = ⟨v.x / s, v.y / s, v.z / s⟩ := rfl

/-- A 3x3 matrix, given by its three rows; embeds the `np.array` row
lists written out in `Drone.calc_thrust`. -/
structure Mat3 where
  row1 : Vector
  row2 : Vector
  row3 : Vector

/-- `np.matmul` of a 3x3 matrix with a 3x1 column vector. -/
def Mat3.mulVec (m : Mat3) (v : Vector) : Vector :=
  ⟨m.row1.x * v.x + m.row1.y * v.y + m.row1.z * v.z,
   m.row2.x * v.x + m.row2.y * v.y + m.row2.z * v.z,
   m.row3.x * v.x + m.row3.y * v.y + m.row3.z * v.z⟩

/-- The exceptions the reference code can raise. -/
inductive PyError where
  | nameError (missing : String)
  | typeError (msg : String)
  | attributeError (missing : String)
deriving Repr, DecidableEq

/-- The `Drone` instance state: four kinematic vectors, the rotor-speed
list, and the six physical constants set in `__init__`
(`drone.py` lines 43-54). -/
structure Drone where
  rotation : Vector
  rotation_velocity : Vector
  pos : Vector
  velocity : Vector
  r_speed : List ℝ
  r : ℝ
  weight : ℝ
  size : ℝ
  m_of_i_xx : ℝ
  m_of_i_zz : ℝ
  m_of_i_r : ℝ

/-- `Drone.__init__` (lines 25-54): stores the six constructor
parameters unchecked and zero-initialises the kinematic state and the
rotor speeds. No validation of any kind is performed. -/
def mkDrone (rotor_radius weight size m_of_i_xx m_of_i_zz m_of_i_r : ℝ) : Drone :=
  { rotation := Vector.zero
    rotation_velocity := Vector.zero
    pos := Vector.zero
    velocity := Vector.zero
    r_speed := [0, 0, 0, 0]
    r := rotor_radius
    weight := weight
    size := size
    m_of_i_xx := m_of_i_xx
    m_of_i_zz := m_of_i_zz
    m_of_i_r := m_of_i_r }

/-- The drone built with all default constructor arguments
(`rotor_radius=15, weight=50, size=10, m_of_i_xx=1, m_of_i_zz=1,
m_of_i_r=1`). -/
def drone0 : Drone := mkDrone 15 50 10 1 1 1

/-- `Drone.calc_rotor_force` (line 178):
`drag_coef * air_density * pi * self.r ** 3 * speed`.
The Python defaults are `drag_coef=0.05`, `air_density=1.225`; callers
inside the class pass only `speed`, so the defaults always apply there
and are passed explicitly in this embedding. -/
def Drone.calc_rotor_force (d : Drone) (speed drag_coef air_density : ℝ) : ℝ :=
  drag_coef * air_density * Real.pi * d.r ^ 3 * speed

/-- The stale scalar attribute `self.roll` read by `calc_thrust` and
`get_params`, resolved per the class docstring ("rotation: Roll, pitch
and yaw stored as a vector") to the first component of `rotation`. -/
def Drone.roll (d : Drone) : ℝ := d.rotation.x

/-- The stale attribute `self.pitch`, resolved to `rotation.y`. -/
def Drone.pitch (d : Drone) : ℝ := d.rotation.y

/-- The stale attribute `self.yaw`, resolved to `rotation.z`. -/
def Drone.yaw (d : Drone) : ℝ := d.rotation.z

/-- The roll rotation matrix of `calc_thrust` (lines 111-113), a
rotation about the Y axis. -/
def roll_matrix (roll : ℝ) : Mat3 :=
  ⟨⟨Real.cos roll, 0, -Real.sin roll⟩,
   ⟨0, 1, 0⟩,
   ⟨Real.sin roll, 0, Real.cos roll⟩⟩

/-- The pitch rotation matrix of `calc_thrust` (lines 115-117), a
rotation about the X axis. -/
def pitch_matrix (pitch : ℝ) : Mat3 :=
  ⟨⟨1, 0, 0⟩,
   ⟨0, Real.cos pitch, -Real.sin pitch⟩,
   ⟨0, Real.sin pitch, Real.cos pitch⟩⟩

/-- The yaw rotation matrix of `calc_thrust` (lines 119-121), a
rotation about the Z axis. -/
def yaw_matrix (yaw : ℝ) : Mat3 :=
  ⟨⟨Real.cos yaw, Real.sin yaw, 0⟩,
   ⟨-Real.sin yaw, Real.cos yaw, 0⟩,
   ⟨0, 0, 1⟩⟩

/-- `Drone.calc_thrust` (lines 95-125), arithmetic layer: the total
force is the sum of the per-rotor forces; a column vector
`[0, 0, total_force]` is rotated by the roll matrix, then the pitch
matrix, then the yaw matrix. The source writes the matrices with `np`,
which is never imported (that NameError is `calc_thrust_exec`); the
matrix entries and the multiplication order here are copied from the
source lines 110-122 verbatim. -/
def Drone.calc_thrust (d : Drone) : Vector :=
  let total_force := (d.r_speed.map (fun s => d.calc_rotor_force s 0.05 1.225)).sum
  let force_matrix : Vector := ⟨0, 0, total_force⟩
  let force_matrix := (roll_matrix d.roll).mulVec force_matrix
  let force_matrix := (pitch_matrix d.pitch).mulVec force_matrix
  (yaw_matrix d.yaw).mulVec force_matrix

/-- `Drone.calc_thrust`, faithful layer: line 105 computes
`total_force` (pure), then line 110 evaluates `np.array(...)`; `np` is
an unbound name (drone.py imports only `Vector`, `pi`, `cos`, `sin`),
so every call raises `NameError: name np is not defined` before any
state is touched. -/
def Drone.calc_thrust_exec (d : Drone) : Except PyError Vector :=
  let _total_force := (d.r_speed.map (fun s => d.calc_rotor_force s 0.05 1.225)).sum
  .error (.nameError "np")

/-- `Drone.calc_rotation` (lines 127-148): torque from the force
difference of an opposing rotor pair, divided by `m_of_i_xx` (used for
both the roll pair and the pitch pair). -/
def Drone.calc_rotation (d : Drone) (front_speed back_speed : ℝ) : ℝ :=
  let front_force := d.calc_rotor_force front_speed 0.05 1.225
  let back_force := d.calc_rotor_force back_speed 0.05 1.225
  let total_force := front_force - back_force
  let torque := total_force * d.size / 2
  torque / d.m_of_i_xx

/-- `Drone.calc_yaw` (lines 150-164), arithmetic layer: per-rotor
angular momenta `m_of_i_r * s`, signed elementwise by `[1, -1, 1, -1]`
(the numpy-style elementwise product the source line 159 intends),
summed, divided by `m_of_i_zz`. -/
def Drone.calc_yaw (d : Drone) : ℝ :=
  let angular_momentum := d.r_speed.map (fun s => d.m_of_i_r * s)
  let signed := List.zipWith (fun a b => a * b) angular_momentum ([1, -1, 1, -1] : List ℝ)
  signed.sum / d.m_of_i_zz

/-- `Drone.calc_yaw`, faithful layer: line 157 builds the
`angular_momentum` Python list (pure); line 159 executes
`angular_momentum *= [1, -1, 1, -1]`, and multiplying a Python list by
a list raises TypeError. -/
def Drone.calc_yaw_exec (d : Drone) : Except PyError ℝ :=
  let _angular_momentum := d.r_speed.map (fun s => d.m_of_i_r * s)
  .error (.typeError "cannot multiply sequence by non-int of type list")

/-- Modelled from the spec: `setRotorSpeeds` as section 4.1 mandates it
(a correctly bound instance method, fixing the reference bug flagged in
section 9 "Missing self parameter bug"): "if length is not 4, the call
is a no-op (no error raised, no state change)", otherwise it "replaces
rotor_speeds atomically". The length-4 test itself is the source line
64 `if len(r_speed) == 4`. -/
def Drone.change_rotor_speed (d : Drone) (r_speed : List ℝ) : Drone :=
  if r_speed.length = 4 then { d with r_speed := r_speed } else d

/-- `Drone.change_rotor_speed` called as a bound method
(`self.change_rotor_speed(r_speed)`, update line 78), faithful layer:
the function is declared `def change_rotor_speed(r_speed)` with no
`self` parameter, so the bound call receives two positional arguments
for one parameter and raises TypeError before the body runs; the
argument list is never even inspected. -/
def Drone.change_rotor_speed_method (_d : Drone) (_r_speed : List ℝ) : Except PyError Drone :=
  .error (.typeError "change_rotor_speed takes 1 positional argument but 2 were given")

/-- `Drone.change_rotor_speed` called unbound
(`Drone.change_rotor_speed(xs)`), faithful layer: the single parameter
`r_speed` receives the list; if its length is not 4 the body is a
silent no-op (there is no state it could change), and if the length is
4, line 65 `self.r_speed = r_speed` reads the unbound name `self` and
raises NameError. -/
def Drone.change_rotor_speed_unbound (r_speed : List ℝ) : Except PyError Unit :=
  if r_speed.length = 4 then .error (.nameError "self") else .ok ()

/-- `Drone.update` (lines 67-93), arithmetic layer: optionally apply
the new rotor speeds, compute thrust, add the raw gravity vector
`Vector(0, 0, g)` to it, divide the total force by `weight` to get the
acceleration, compute the roll/pitch/yaw rates into locals that the
source then discards (lines 87-89 bind `roll`, `pitch`, `yaw` and
never assign them to state), and apply the Euler deltas: `pos` gains
`velocity * dt` (pre-update velocity), then `velocity` gains
`acceleration * dt`. `rotation` is never updated. The stored rotor
speed list always has 4 elements, so the `getD` defaults are never
used. -/
def Drone.update (d : Drone) (dt g : ℝ) (r_speed : Option (List ℝ)) : Drone :=
  let d := match r_speed with
    | some rs => d.change_rotor_speed rs
    | none => d
  let thrust := d.calc_thrust
  let gravity : Vector := ⟨0, 0, g⟩
  let total_force := thrust + gravity
  let acceleration := total_force / d.weight
  let _roll := d.calc_rotation (d.r_speed.getD 0 0) (d.r_speed.getD 3 0)
  let _pitch := d.calc_rotation (d.r_speed.getD 1 0) (d.r_speed.getD 2 0)
  let _yaw := d.calc_yaw
  { d with pos := d.pos + d.velocity * dt,
           velocity := d.velocity + acceleration * dt }

/-- Lines 80-93 of `Drone.update`, faithful layer (shared by both
branches of `update_exec`): `calc_thrust` raises NameError on `np`
before anything else happens. -/
def Drone.update_after_speeds (d : Drone) (dt g : ℝ) : Except PyError Drone :=
  match d.calc_thrust_exec with
  | .error e => .error e
  | .ok thrust =>
    let gravity : Vector := ⟨0, 0, g⟩
    let total_force := thrust + gravity
    let acceleration := total_force / d.weight
    let _roll := d.calc_rotation (d.r_speed.getD 0 0) (d.r_speed.getD 3 0)
    let _pitch := d.calc_rotation (d.r_speed.getD 1 0) (d.r_speed.getD 2 0)
    match d.calc_yaw_exec with
    | .error e => .error e
    | .ok _yaw =>
      .ok { d with pos := d.pos + d.velocity * dt,
                   velocity := d.velocity + acceleration * dt }

/-- `Drone.update`, faithful layer. With a rotor-speed argument, line
78 `self.change_rotor_speed(r_speed)` raises TypeError (missing-self
bug). Without one, line 81 `self.calc_thrust()` raises NameError on
`np`. Either way the exception propagates before the state assignments
at lines 92-93, so the instance is left unmodified. -/
def Drone.update_exec (d : Drone) (dt g : ℝ) (r_speed : Option (List ℝ)) :
    Except PyError Drone :=
  match r_speed with
  | some rs =>
    match d.change_rotor_speed_method rs with
    | .error e => .error e
    | .ok d1 => d1.update_after_speeds dt g
  | none => d.update_after_speeds dt g

/-- `Drone.get_params` (lines 180-196), arithmetic layer: the nine
scalars in source order, with the stale `self.roll` / `self.pitch` /
`self.yaw` resolved to the components of `rotation`. -/
def Drone.get_params (d : Drone) : List ℝ :=
  [d.pos.x, d.pos.y, d.pos.z,
   d.velocity.x, d.velocity.y, d.velocity.z,
   d.roll, d.pitch, d.yaw]

/-- `Drone.get_params`, faithful layer: the first six list elements
(lines 187-192) read existing attributes, then line 193 reads
`self.roll`, which no method of the class ever assigns, raising
AttributeError. -/
def Drone.get_params_exec (d : Drone) : Except PyError (List ℝ) :=
  let _first6 := [d.pos.x, d.pos.y, d.pos.z,
                  d.velocity.x, d.velocity.y, d.velocity.z]
  .error (.attributeError "roll")

/-- The default drone with all four rotors at speed 10 — the scenario
of spec section 8. -/
def droneHover : Drone := { drone0 with r_speed := [10, 10, 10, 10] }

/-- The default drone with only the front-left rotor spinning:
an asymmetric thrust configuration with a nonzero roll rate. -/
def droneAsym : Drone := { drone0 with r_speed := [10, 0, 0, 0] }

/-- The default drone with nonzero position, velocity and orientation,
used to exercise the state snapshot. -/
def droneMoved : Drone :=
  { drone0 with pos := ⟨1, 2, 3⟩, velocity := ⟨4, 5, 6⟩, rotation := ⟨7, 8, 9⟩ }

theorem Mat3.mulVec_zero (m : Mat3) : m.mulVec ⟨0, 0, 0⟩ = ⟨0, 0, 0⟩ := by
  simp [Mat3.mulVec]

theorem calc_thrust_zero_speeds (d : Drone) (hs : d.r_speed = [0, 0, 0, 0]) :
    d.calc_thrust = Vector.zero := by
  simp [Drone.calc_thrust, hs, Drone.calc_rotor_force, Vector.zero, Mat3.mulVec]

/-- One tick from the all-zero kinematic state with zero gravity and
zero rotor speeds leaves position, velocity and the rotor speeds at
zero. -/
theorem update_keeps_zero_state (d : Drone) (dt : ℝ)
    (hp : d.pos = Vector.zero) (hv : d.velocity = Vector.zero)
    (hs : d.r_speed = [0, 0, 0, 0]) :
    (d.update dt 0 none).pos = Vector.zero ∧
    (d.update dt 0 none).velocity = Vector.zero ∧
    (d.update dt 0 none).r_speed = [0, 0, 0, 0] := by
  have ht := calc_thrust_zero_speeds d hs
  refine ⟨?_, ?_, hs⟩
  · show d.pos + d.velocity * dt = Vector.zero
    simp [hp, hv, Vector.zero]
  · show d.velocity + (d.calc_thrust + (⟨0, 0, 0⟩ : Vector)) / d.weight * dt = Vector.zero
    simp [hv, ht, Vector.zero]

/-- Claim C2: for every rotor speed `s`, the per-rotor force equals
`dragCoefficient * airDensity * pi * rotorRadius ^ 3 * s` (drag
coefficient 0.05 and air density 1.225 by default), and the force is
linear in speed: `force (2 * s) = 2 * force s` for fixed radius, drag
coefficient and air density. -/
theorem C2_rotor_force_formula_and_linearity (d : Drone) (s drag_coef air_density : ℝ) :
    d.calc_rotor_force s 0.05 1.225 = 0.05 * 1.225 * Real.pi * d.r ^ 3 * s ∧
    d.calc_rotor_force (2 * s) drag_coef air_density =
      2 * d.calc_rotor_force s drag_coef air_density := by
  refine ⟨rfl, ?_⟩
  unfold Drone.calc_rotor_force
  ring

/-- Claim C9: the claim says construction with a zero or negative
divisor constant (mass, inertiaXx, inertiaZz) raises
InvalidConfiguration. The constructor `__init__` performs no
validation at all: it returns a fully formed instance whose divisor
constants are zero or negative, as evaluated here. -/
theorem C9_constructor_accepts_invalid_divisors :
    (mkDrone 15 0 10 0 0 1).weight = 0 ∧
    (mkDrone 15 0 10 0 0 1).m_of_i_xx = 0 ∧
    (mkDrone 15 0 10 0 0 1).m_of_i_zz = 0 ∧
    (mkDrone 15 (-1) 10 1 1 1).weight = -1 ∧
    (mkDrone 15 0 10 0 0 1).r_speed = [0, 0, 0, 0] :=
  ⟨rfl, rfl, rfl, rfl, rfl⟩

/-- Claim C4: the claim says a tick with valid numeric input raises no
exception. On the default drone (positive mass and inertias), a tick
with `dt = 1`, `g = -9.81` and no speed argument raises
`NameError: np` inside `calc_thrust` (numpy is never imported), and a
tick passing the valid speed list `[10, 10, 10, 10]` raises TypeError
inside the missing-`self` `change_rotor_speed`; `calc_yaw` on its own
raises TypeError from multiplying a list by a list. -/
theorem C4_update_always_raises :
    drone0.update_exec 1 (-9.81) none = .error (.nameError "np") ∧
    drone0.update_exec 1 (-9.81) (some [10, 10, 10, 10]) =
      .error (.typeError "change_rotor_speed takes 1 positional argument but 2 were given") ∧
    drone0.calc_thrust_exec = .error (.nameError "np") ∧
    drone0.calc_yaw_exec =
      .error (.typeError "cannot multiply sequence by non-int of type list") :=
  ⟨rfl, rfl, rfl, rfl⟩

/-- Claim C5: the claim says a non-length-4 update is a silent no-op
and a length-4 update replaces the speeds. Faithfully: a bound call
raises TypeError whatever the length (so the tick path is not silent
and never replaces the speeds); an unbound call is indeed a silent
no-op for length 3 but raises NameError on `self` for length 4, so the
speeds are never replaced. The spec-modelled corrected setter behaves
exactly as the claim states. -/
theorem C5_setter_raises_instead_of_replacing :
    Drone.change_rotor_speed_method drone0 [1, 2, 3, 4] =
      .error (.typeError "change_rotor_speed takes 1 positional argument but 2 were given") ∧
    drone0.update_exec 1 (-9.81) (some [1, 2, 3]) =
      .error (.typeError "change_rotor_speed takes 1 positional argument but 2 were given") ∧
    Drone.change_rotor_speed_unbound [1, 2, 3] = .ok () ∧
    Drone.change_rotor_speed_unbound [1, 2, 3, 4] = .error (.nameError "self") ∧
    (drone0.change_rotor_speed [1, 2, 3, 4]).r_speed = [1, 2, 3, 4] ∧
    (drone0.change_rotor_speed [1, 2, 3]).r_speed = [0, 0, 0, 0] := by
  refine ⟨rfl, rfl, ?_, ?_, ?_, ?_⟩ <;>
    simp [Drone.change_rotor_speed_unbound, Drone.change_rotor_speed, drone0, mkDrone]

/-- Claim C10: a tick never modifies any of the six physical
constants, for every value of the optional rotor-speed argument (none
or any list); the orientation and the angular velocity are likewise
returned unchanged; and a tick with no rotor-speed argument also
leaves the stored rotor speeds unchanged — `pos` and `velocity` are
the only fields the arithmetic-layer update reassigns. -/
theorem C10_update_touches_only_pos_velocity (d : Drone) (dt g : ℝ)
    (rs : Option (List ℝ)) :
    (d.update dt g rs).r = d.r ∧
    (d.update dt g rs).weight = d.weight ∧
    (d.update dt g rs).size = d.size ∧
    (d.update dt g rs).m_of_i_xx = d.m_of_i_xx ∧
    (d.update dt g rs).m_of_i_zz = d.m_of_i_zz ∧
    (d.update dt g rs).m_of_i_r = d.m_of_i_r ∧
    (d.update dt g rs).rotation = d.rotation ∧
    (d.update dt g rs).rotation_velocity = d.rotation_velocity ∧
    (d.update dt g none).r_speed = d.r_speed := by
  cases rs with
  | none => exact ⟨rfl, rfl, rfl, rfl, rfl, rfl, rfl, rfl, rfl⟩
  | some l =>
    by_cases hl : l.length = 4 <;>
      simp [Drone.update, Drone.change_rotor_speed, hl]

theorem Vector.add_zero_v (v : Vector) : v + Vector.zero = v := by
  cases v; simp [Vector.zero]

theorem Vector.zero_add_v (v : Vector) : Vector.zero + v = v := by
  cases v; simp [Vector.zero]

theorem Vector.mul_one_s (v : Vector) : v * (1 : ℝ) = v := by
  cases v; simp

/-- Claim C1: the linear acceleration of a tick is
`(thrust + (0, 0, g)) / weight` — the raw gravity term joins the force
sum before the single division by mass — and the Euler step adds
`velocity * dt` to the position using the pre-update velocity, then
`acceleration * dt` to the velocity; from rest the position is
unchanged while the velocity gains `acceleration * dt`. The faithful
tick raises NameError on `np` before ever applying these deltas. -/
theorem C1_gravity_in_force_and_euler_order (d : Drone) (dt g : ℝ) :
    drone0.update_exec 1 (-9.81) none = .error (.nameError "np") ∧
    (d.update dt g none).pos = d.pos + d.velocity * dt ∧
    (d.update dt g none).velocity =
      d.velocity + (d.calc_thrust + (⟨0, 0, g⟩ : Vector)) / d.weight * dt ∧
    (droneHover.update 1 (-9.81) none).pos = droneHover.pos ∧
    (droneHover.update 1 (-9.81) none).velocity =
      (droneHover.calc_thrust + (⟨0, 0, -9.81⟩ : Vector)) / droneHover.weight * (1 : ℝ) := by
  refine ⟨rfl, rfl, rfl, ?_, ?_⟩
  · show droneHover.pos + droneHover.velocity * (1 : ℝ) = droneHover.pos
    have hv : droneHover.velocity = Vector.zero := rfl
    rw [hv, show Vector.zero * (1 : ℝ) = Vector.zero from by simp [Vector.zero],
        Vector.add_zero_v]
  · show droneHover.velocity +
        (droneHover.calc_thrust + (⟨0, 0, -9.81⟩ : Vector)) / droneHover.weight * (1 : ℝ) =
        (droneHover.calc_thrust + (⟨0, 0, -9.81⟩ : Vector)) / droneHover.weight * (1 : ℝ)
    have hv : droneHover.velocity = Vector.zero := rfl
    rw [hv, Vector.zero_add_v]

/-- Claim C3: the thrust vector is the column `(0, 0, total_force)`
(total force = sum of the four per-rotor forces) multiplied by the
roll matrix, then the pitch matrix, then the yaw matrix, evaluated at
the current orientation angles; at zero angles the thrust stays on the
Z axis. The faithful `calc_thrust` raises NameError on `np` before
building any matrix. -/
theorem C3_thrust_roll_pitch_yaw_order (d : Drone) :
    d.calc_thrust_exec = .error (.nameError "np") ∧
    d.calc_thrust =
      (yaw_matrix d.rotation.z).mulVec
        ((pitch_matrix d.rotation.y).mulVec
          ((roll_matrix d.rotation.x).mulVec
            ⟨0, 0, (d.r_speed.map (fun s => d.calc_rotor_force s 0.05 1.225)).sum⟩)) ∧
    droneHover.calc_thrust =
      ⟨0, 0, (droneHover.r_speed.map
        (fun s => droneHover.calc_rotor_force s 0.05 1.225)).sum⟩ := by
  refine ⟨rfl, rfl, ?_⟩
  have hrot : droneHover.rotation = Vector.zero := rfl
  simp [Drone.calc_thrust, Drone.roll, Drone.pitch, Drone.yaw, hrot, Vector.zero,
        roll_matrix, pitch_matrix, yaw_matrix, Mat3.mulVec]

/-- Claim C6: the claim says a tick integrates the roll, pitch and yaw
rates into the orientation. The reference update binds the rates to
locals and never assigns them: even with an asymmetric rotor
configuration whose roll rate is nonzero, the arithmetic-layer tick
returns `rotation` and `rotation_velocity` unchanged — and the
faithful tick raises NameError on `np` anyway. -/
theorem C6_orientation_never_integrated :
    (droneAsym.update 1 (-9.81) none).rotation = droneAsym.rotation ∧
    (droneAsym.update 1 (-9.81) none).rotation_velocity = droneAsym.rotation_velocity ∧
    droneAsym.calc_rotation (droneAsym.r_speed.getD 0 0) (droneAsym.r_speed.getD 3 0) ≠ 0 ∧
    droneAsym.update_exec 1 (-9.81) none = .error (.nameError "np") := by
  refine ⟨rfl, rfl, ?_, rfl⟩
  have h10 : droneAsym.r_speed.getD 0 0 = 10 := rfl
  have h30 : droneAsym.r_speed.getD 3 0 = 0 := rfl
  rw [h10, h30]
  have hr : droneAsym.r = 15 := rfl
  have hs : droneAsym.size = 10 := rfl
  have hxx : droneAsym.m_of_i_xx = 1 := rfl
  simp only [Drone.calc_rotation, Drone.calc_rotor_force, hr, hs, hxx]
  have hπ : (0 : ℝ) < Real.pi := Real.pi_pos
  intro hcontra
  nlinarith [hcontra, hπ]

/-- Claim C7: with all four rotor speeds zero and zero gravity, any
number of ticks of any positive size leaves position and velocity
unchanged at zero: no spurious force is injected. -/
theorem C7_no_spurious_force (d : Drone) (dt : ℝ) (n : ℕ) (hdt : 0 < dt)
    (hp : d.pos = Vector.zero) (hv : d.velocity = Vector.zero)
    (hs : d.r_speed = [0, 0, 0, 0]) :
    ((fun s => s.update dt 0 none)^[n] d).pos = Vector.zero ∧
    ((fun s => s.update dt 0 none)^[n] d).velocity = Vector.zero := by
  have key : ∀ m : ℕ, ∀ e : Drone, e.pos = Vector.zero → e.velocity = Vector.zero →
      e.r_speed = [0, 0, 0, 0] →
      ((fun s => s.update dt 0 none)^[m] e).pos = Vector.zero ∧
      ((fun s => s.update dt 0 none)^[m] e).velocity = Vector.zero ∧
      ((fun s => s.update dt 0 none)^[m] e).r_speed = [0, 0, 0, 0] := by
    intro m
    induction m with
    | zero => intro e h1 h2 h3; simpa using ⟨h1, h2, h3⟩
    | succ k ih =>
      intro e h1 h2 h3
      rw [Function.iterate_succ_apply]
      exact ih _ (update_keeps_zero_state e dt h1 h2 h3).1
        (update_keeps_zero_state e dt h1 h2 h3).2.1
        (update_keeps_zero_state e dt h1 h2 h3).2.2
  exact ⟨(key n d hp hv hs).1, (key n d hp hv hs).2.1⟩

/-- Witness for C7 at the default drone, `dt = 1`, three ticks. -/
theorem C7_no_spurious_force_witness :
    (0 : ℝ) < 1 ∧ drone0.pos = Vector.zero ∧ drone0.velocity = Vector.zero ∧
    drone0.r_speed = [0, 0, 0, 0] ∧
    (((fun s => s.update 1 0 none)^[3] drone0).pos = Vector.zero ∧
     ((fun s => s.update 1 0 none)^[3] drone0).velocity = Vector.zero) :=
  ⟨one_pos, rfl, rfl, rfl, C7_no_spurious_force drone0 1 3 one_pos rfl rfl rfl⟩

/-- Claim C8: the claim says getState returns the nine scalars
(position, velocity, roll, pitch, yaw) exactly as stored. Faithfully,
`get_params` raises AttributeError reading `self.roll`, which no
method ever assigns; with the stale attributes resolved to the
`rotation` components, the snapshot is exactly the nine stored fields
in the claimed order. -/
theorem C8_snapshot_raises_yet_lists_fields :
    droneMoved.get_params_exec = .error (.attributeError "roll") ∧
    droneMoved.get_params =
      [droneMoved.pos.x, droneMoved.pos.y, droneMoved.pos.z,
       droneMoved.velocity.x, droneMoved.velocity.y, droneMoved.velocity.z,
       droneMoved.rotation.x, droneMoved.rotation.y, droneMoved.rotation.z] ∧
    droneMoved.get_params.length = 9 :=
  ⟨rfl, rfl, rfl⟩

end

end FlyPy
